import Mathlib

/-!
Verification of the timestamp-normalization, filtering, sorting and display
logic of TodaySocialSnack.py (functions load_sheet,
coerce_range_like_series_tz, filter_data, format_when_display).

Modelling conventions:

* A pandas Timestamp is modelled at one-second granularity as an `Int`
  counting seconds since the epoch 1970-01-01 00:00:00.  All range bounds
  produced by the code are second-aligned, so this granularity is exact for
  the comparisons at issue.
* A tz-aware value is a pair of a UTC instant and the zone's fixed UTC
  offset in seconds; Asia/Seoul is the fixed offset +9 h = 32400 s (Korea
  has used a constant +09:00 offset with no DST throughout the pandas
  Timestamp range relevant here).
* A pandas datetime Series is tz-aware or tz-naive uniformly (the dtype
  carries the zone), so a frame carries one `tz : Option Int` for its date
  column; the per-row stored value is the UTC instant when aware and the
  bare wall-clock value when naive.
* pandas string-to-datetime parsing (dateutil) is not re-implemented; it is
  a parameter `parse : String → ParseOutcome` classifying every raw string
  as unparseable, zone-naive (with its wall-clock seconds) or
  zone-qualified (with its UTC instant).  The code under verification only
  post-processes this classification, which is what the claims are about.
* Comparing a tz-naive with a tz-aware value raises TypeError in pandas;
  the comparison is therefore modelled as `Option Bool`, `none` being the
  raised error, and `filter_data` propagates it as `Option Frame`.
-/

/-- The six required logical columns (REQUIRED_COLS in the source). -/
def REQUIRED_COLS : List String :=
  ["날짜", "제목", "본문", "토픽 분류", "요약", "뉴스레터"]

/-- Fixed UTC offset of the reference zone Asia/Seoul, in seconds. -/
def seoulOffset : Int := 9 * 3600

/-- A pandas Timestamp value: tz-naive wall-clock seconds, or a tz-aware
instant (UTC seconds) tagged with its zone's fixed UTC offset. -/
inductive PdTimestamp where
  | naive (wall : Int)
  | aware (utc : Int) (off : Int)
deriving DecidableEq

/-- The zone state of a PdTimestamp (the tzinfo attribute). -/
def tsTz : PdTimestamp → Option Int
  | .naive _ => none
  | .aware _ off => some off

/-- pandas ordering on Timestamps: naive values compare by wall clock,
aware values compare by UTC instant, and a naive/aware mix raises
TypeError, modelled as `none`. -/
def tsLe : PdTimestamp → PdTimestamp → Option Bool
  | .naive a, .naive b => some (decide (a ≤ b))
  | .aware a _, .aware b _ => some (decide (a ≤ b))
  | _, _ => none

/-- One logical record row.  All six fields are structurally present; a
missing value is the explicit sentinel `none` (pandas NA / NaT). -/
structure Row where
  publishedAt : Option Int
  title : Option String
  body : Option String
  topic : Option String
  summary : Option String
  newsletterBody : Option String
deriving DecidableEq

/-- A data frame restricted to the six logical columns: the zone state of
the date column (uniform over the column, as the pandas dtype is) and the
rows.  `publishedAt` holds UTC seconds when `tz` is aware and bare
wall-clock seconds when `tz` is `none`. -/
structure Frame where
  tz : Option Int
  rows : List Row
deriving DecidableEq

/-- The PdTimestamp denoted by one stored date cell of a frame. -/
def seriesTs (tz : Option Int) (v : Int) : PdTimestamp :=
  match tz with
  | none => .naive v
  | some off => .aware v off

/-- The wall-clock reading of one stored date cell of a frame (aware cells
store UTC, so the wall clock adds the zone offset). -/
def wallOf (tz : Option Int) (v : Int) : Int :=
  v + tz.getD 0

/-- Outcome of pandas parsing one raw timestamp string. -/
inductive ParseOutcome where
  | failed
  | naiveWall (wall : Int)
  | awareUtc (utc : Int)
deriving DecidableEq

/-- Raw CSV as returned by pandas read_csv: a header naming the columns and
rows of cells, a cell being absent (NaN) or a string. -/
structure Csv where
  header : List String
  rows : List (List (Option String))
deriving DecidableEq

/-- Python str.strip(): remove leading and trailing whitespace from a
column name.  Written structurally over the character list so the kernel
can evaluate it on concrete headers. -/
def pyStrip (s : String) : String :=
  String.mk (((s.data.dropWhile Char.isWhitespace).reverse.dropWhile
    Char.isWhitespace).reverse)

/-- df.columns.astype(str).str.strip(): trim surrounding whitespace from
every column name. -/
def stripHeader (header : List String) : List String :=
  header.map pyStrip

/-- Position of a required column in the trimmed header (first occurrence,
as pandas label lookup uses), `none` when the column is absent — in which
case the source synthesizes an all-NA column (df[c] = pd.NA). -/
def colIndex (header : List String) (c : String) : Option Nat :=
  (stripHeader header).findIdx? (fun h => h == c)

/-- The cell of one raw row under a required column name: `none` when the
column is absent (synthesized NA column) or the row is short (read_csv pads
with NaN) or the cell itself is NaN. -/
def getCell (header : List String) (raw : List (Option String)) (c : String) :
    Option String :=
  match colIndex header c with
  | none => none
  | some i => (raw.get? i).join

/-- pd.to_datetime(value, errors="coerce", utc=True) on one cell: parse
failure and NaN coerce to NaT; a zone-naive value is localized as UTC
(its wall-clock figures are read as UTC); a zone-qualified value becomes
its UTC instant.  The result is a UTC instant or NaT. -/
def to_datetime_utc (parse : String → ParseOutcome) : Option String → Option Int
  | none => none
  | some s =>
    match parse s with
    | .failed => none
    | .naiveWall w => some w
    | .awareUtc u => some u

/-- Lines 52-63 of the source: parse the date cell UTC-aware, then
s.dt.tz_convert("Asia/Seoul") followed by s.dt.tz_localize(None), i.e. add
the Seoul offset to the UTC instant and strip the zone, leaving a bare
wall-clock value.  (With utc=True the series is always UTC-aware, so the
conversion never fails and the defensive except branch is dead.) -/
def normalizeDate (parse : String → ParseOutcome) (cell : Option String) :
    Option Int :=
  (to_datetime_utc parse cell).map (fun u => u + seoulOffset)

/-- Build one Record from one raw row (column lookup on the trimmed header
plus the date-normalization pipeline). -/
def mkRecord (parse : String → ParseOutcome) (header : List String)
    (raw : List (Option String)) : Row :=
  { publishedAt := normalizeDate parse (getCell header raw "날짜")
    title := getCell header raw "제목"
    body := getCell header raw "본문"
    topic := getCell header raw "토픽 분류"
    summary := getCell header raw "요약"
    newsletterBody := getCell header raw "뉴스레터" }

/-- Result of load_sheet: the frame plus whether the distinct
"source unavailable" condition (the st.error branch) was reported. -/
structure LoadResult where
  sourceUnavailable : Bool
  frame : Frame
deriving DecidableEq

/-- load_sheet: a fetch failure (any exception from read_csv) reports the
source-unavailable condition and returns an empty frame with the required
columns; otherwise every raw row is normalized into a Record and the date
column ends tz-naive (Seoul wall-clock). -/
def load_sheet (parse : String → ParseOutcome) (fetch : Except String Csv) :
    LoadResult :=
  match fetch with
  | .error _ => ⟨true, ⟨none, []⟩⟩
  | .ok csv => ⟨false, ⟨none, csv.rows.map (mkRecord parse csv.header)⟩⟩

/-- coerce_range_like_series_tz: build the (start, end) comparison bounds
from the calendar dates (given as epoch day numbers).  Timestamp(start) is
midnight; the end bound is end + 1 day - 1 second, i.e. end 23:59:59.  If
the series is tz-aware the bounds are tz_localized into the series' own
zone (the constructed bounds are naive, so the tz_convert branch is dead);
if the series is tz-naive the bounds stay naive. -/
def coerce_range_like_series_tz (startDay endDay : Int) (tz : Option Int) :
    PdTimestamp × PdTimestamp :=
  let startTs : Int := startDay * 86400
  let endTs : Int := endDay * 86400 + 86400 - 1
  match tz with
  | none => (.naive startTs, .naive endTs)
  | some off => (.aware (startTs - off) off, .aware (endTs - off) off)

/-- The topic test of filter_data: Series.isin — a record matches a
selected-topic list iff its topic is a present string equal to one of the
selected topics; NA never matches. -/
def topicMatch (ts : List String) (r : Row) : Bool :=
  match r.topic with
  | some s => ts.contains s
  | none => false

/-- The topic stage of filter_data: `if topics:` — None and the empty list
are falsy, so no topic filtering happens; otherwise keep the isin rows. -/
def topicStage (topics : Option (List String)) (rows : List Row) : List Row :=
  match topics with
  | none => rows
  | some ts => if ts.isEmpty then rows else rows.filter (topicMatch ts)

/-- The per-row date mask of filter_data: notna & (value >= start) &
(value <= end).  NaT compares False against any bound; a present value is
compared as a Timestamp of the series' zone state, and a naive/aware
mismatch is the raised TypeError (`none`). -/
def dateMask (tz : Option Int) (lo hi : PdTimestamp) (r : Row) : Option Bool :=
  match r.publishedAt with
  | none => some false
  | some v =>
    match tsLe lo (seriesTs tz v), tsLe (seriesTs tz v) hi with
    | some b1, some b2 => some (b1 && b2)
    | _, _ => none

/-- The date stage of filter_data: keep the rows whose mask is True,
propagating a raised comparison TypeError. -/
def dateStage (tz : Option Int) (lo hi : PdTimestamp) :
    List Row → Option (List Row)
  | [] => some []
  | r :: rs =>
    match dateMask tz lo hi r, dateStage tz lo hi rs with
    | some b, some l => some (if b then r :: l else l)
    | _, _ => none

/-- The sort comparator of sort_values(by="날짜", ascending=False,
na_position="last"): larger timestamps first, NaT last. -/
def rowLe (a b : Row) : Bool :=
  match a.publishedAt, b.publishedAt with
  | some ta, some tb => decide (tb ≤ ta)
  | some _, none => true
  | none, some _ => false
  | none, none => true

/-- The sort of filter_data, one concrete comparison sort under `rowLe`.
sort_values here runs with its default kind (quicksort), so the program
only guarantees a permutation that is descending with NaT last; its order
among equal dates is implementation-defined and is NOT matched by this
model (mergeSort is stable).  The results below therefore use sortRows
only through facts every comparison sort satisfies — membership /
permutation and definedness — never through its tie order. -/
def sortRows (rows : List Row) : List Row :=
  rows.mergeSort rowLe

/-- filter_data: copy, topic stage, date stage (bounds coerced to the
series' zone state by coerce_range_like_series_tz), then sort.  `none` is
a raised TypeError from a mixed-zone comparison. -/
def filter_data (df : Frame) (topics : Option (List String))
    (dateRange : Option (Int × Int)) : Option Frame :=
  let rows1 := topicStage topics df.rows
  match dateRange with
  | none => some ⟨df.tz, sortRows rows1⟩
  | some (s, e) =>
    let bounds := coerce_range_like_series_tz s e df.tz
    match dateStage df.tz bounds.1 bounds.2 rows1 with
    | none => none
    | some rows2 => some ⟨df.tz, sortRows rows2⟩

/-- The rows that survive both filter stages of filter_data, still in their
input relative order (before the final sort). -/
def keptRows (df : Frame) (topics : Option (List String))
    (dateRange : Option (Int × Int)) : List Row :=
  let rows1 := topicStage topics df.rows
  match dateRange with
  | none => rows1
  | some (s, e) =>
    let bounds := coerce_range_like_series_tz s e df.tz
    rows1.filter (fun r => decide (dateMask df.tz bounds.1 bounds.2 r = some true))

/-- Civil-calendar conversion of an epoch day number to (year, month, day)
(the proleptic-Gregorian algorithm the platform date libraries use).  Lean
Int division is Euclidean, which agrees with floor division for the
positive divisors used here. -/
def civilFromDays (z0 : Int) : Int × Int × Int :=
  let z := z0 + 719468
  let era := z / 146097
  let doe := z - era * 146097
  let yoe := (doe - doe / 1460 + doe / 36524 - doe / 146096) / 365
  let y := yoe + era * 400
  let doy := doe - (365 * yoe + yoe / 4 - yoe / 100)
  let mp := (5 * doy + 2) / 153
  let d := doy - (153 * mp + 2) / 5 + 1
  let m := mp + (if mp < 10 then 3 else -9)
  (y + (if m ≤ 2 then 1 else 0), m, d)

/-- Two-digit zero-padded decimal rendering of a field value.  All the
field values the formatter produces lie in 0..99, where this agrees with
strftime's %m/%d/%H/%M. -/
def twoDigits (n : Int) : List Char :=
  [Nat.digitChar (n.toNat / 10 % 10), Nat.digitChar (n.toNat % 10)]

/-- Four-digit zero-padded decimal rendering of the year.  pandas
Timestamps are bounded to years 1677..2262 by their nanosecond range, where
this agrees with strftime's %Y. -/
def fourDigits (n : Int) : List Char :=
  [Nat.digitChar (n.toNat / 1000 % 10), Nat.digitChar (n.toNat / 100 % 10),
   Nat.digitChar (n.toNat / 10 % 10), Nat.digitChar (n.toNat % 10)]

/-- strftime("%Y-%m-%d %H:%M") on a bare wall-clock value given as seconds
since the epoch. -/
def strftimeYmdHm (w : Int) : String :=
  let days := w / 86400
  let sod := w % 86400
  let ymd := civilFromDays days
  String.mk (fourDigits ymd.1 ++ '-' :: twoDigits ymd.2.1 ++ '-' ::
    twoDigits ymd.2.2 ++ ' ' :: twoDigits (sod / 3600) ++ ':' ::
    twoDigits (sod % 3600 / 60))

/-- format_when_display: NaT (or a non-Timestamp) renders as the empty
string; a tz-aware value is first converted to Asia/Seoul wall clock; a
naive value is rendered directly. -/
def format_when_display : Option PdTimestamp → String
  | none => ""
  | some (.naive w) => strftimeYmdHm w
  | some (.aware u _) => strftimeYmdHm (u + seoulOffset)

/-- Checks the display pattern YYYY-MM-DD HH:MM: sixteen characters, ten
decimal digits in the shown positions, the literal separators, and no zone
suffix. -/
def isTsDisplay (s : String) : Bool :=
  match s.data with
  | [y1, y2, y3, y4, c1, m1, m2, c2, d1, d2, c3, h1, h2, c4, n1, n2] =>
    y1.isDigit && y2.isDigit && y3.isDigit && y4.isDigit && c1 == '-' &&
    m1.isDigit && m2.isDigit && c2 == '-' && d1.isDigit && d2.isDigit &&
    c3 == ' ' && h1.isDigit && h2.isDigit && c4 == ':' &&
    n1.isDigit && n2.isDigit
  | _ => false

/-! ### Concrete data for the spec's worked scenario

Epoch arithmetic: 2024-01-05 is epoch day 19727 and 2024-01-06 is epoch
day 19728, so 2024-01-05T10:00:00Z is UTC second 1704448800, the bare wall
clock 2024-01-06 09:00 is second 1704531600, 2024-01-05 19:00 is second
1704481200 and 2024-01-06 18:00 is second 1704564000. -/

/-- The parse classification of the three raw values in the spec's
scenario: one zone-qualified value, one zone-naive value, one unparseable
value. -/
def scenarioParse (s : String) : ParseOutcome :=
  if s == "2024-01-05T10:00:00Z" then .awareUtc 1704448800
  else if s == "2024-01-06 09:00" then .naiveWall 1704531600
  else .failed

/-- The raw table of the spec's scenario. -/
def scenarioCsv : Csv :=
  ⟨["날짜", "토픽 분류"],
   [[some "2024-01-05T10:00:00Z", some "정치"],
    [some "2024-01-06 09:00", some "경제"],
    [some "garbage", some "정치"]]⟩

/-- A raw table missing four required columns, with an unparseable date. -/
def degradedCsv : Csv := ⟨["날짜", "제목"], [[some "garbage", some "기사"]]⟩

/-- Loaded record of scenario row 1 (normalized to 2024-01-05 19:00). -/
def rowA : Row := ⟨some 1704481200, none, none, some "정치", none, none⟩

/-- Loaded record of scenario row 2 (shifted to 2024-01-06 18:00). -/
def rowB : Row := ⟨some 1704564000, none, none, some "경제", none, none⟩

/-- Loaded record of scenario row 3 (unparseable date → missing). -/
def rowC : Row := ⟨none, none, none, some "정치", none, none⟩

/-- The loaded scenario frame. -/
def df0 : Frame := ⟨none, [rowA, rowB, rowC]⟩

/-- A record with a missing topic. -/
def rowD : Row := ⟨some 1704500000, none, none, none, none, none⟩

/-! ### Helper lemmas about the date stage -/

/-- The bounds built by coerce_range_like_series_tz never produce a raised
comparison against a cell of the same series: the mask is always defined. -/
theorem dateMask_coerced_isSome (tz : Option Int) (s e : Int) (r : Row) :
    ∃ b, dateMask tz (coerce_range_like_series_tz s e tz).1
      (coerce_range_like_series_tz s e tz).2 r = some b := by
  cases hp : r.publishedAt with
  | none => exact ⟨false, by simp [dateMask, hp]⟩
  | some v =>
    cases tz <;>
      simp [dateMask, hp, coerce_range_like_series_tz, seriesTs, tsLe]

/-- When every per-row mask is defined, the date stage succeeds and keeps
exactly the rows whose mask is True, in order. -/
theorem dateStage_eq_filter (tz : Option Int) (lo hi : PdTimestamp)
    (rows : List Row)
    (h : ∀ r ∈ rows, ∃ b, dateMask tz lo hi r = some b) :
    dateStage tz lo hi rows =
      some (rows.filter (fun r => decide (dateMask tz lo hi r = some true))) := by
  induction rows with
  | nil => rfl
  | cons r rs ih =>
    obtain ⟨b, hb⟩ := h r (List.mem_cons_self r rs)
    have hrs := ih (fun x hx => h x (List.mem_cons_of_mem r hx))
    cases b with
    | true => simp [dateStage, hb, hrs, List.filter_cons]
    | false => simp [dateStage, hb, hrs, List.filter_cons]

/-- filter_data never raises and computes: the kept rows, sorted, over the
unchanged zone state. -/
theorem filter_data_eq (df : Frame) (topics : Option (List String))
    (dateRange : Option (Int × Int)) :
    filter_data df topics dateRange =
      some ⟨df.tz, sortRows (keptRows df topics dateRange)⟩ := by
  cases dateRange with
  | none => rfl
  | some se =>
    obtain ⟨s, e⟩ := se
    have h := dateStage_eq_filter df.tz (coerce_range_like_series_tz s e df.tz).1
      (coerce_range_like_series_tz s e df.tz).2 (topicStage topics df.rows)
      (fun r _ => dateMask_coerced_isSome df.tz s e r)
    simp [filter_data, keptRows, h]

/-- Every kept row passes the date mask (when a range is active). -/
theorem mem_keptRows_dateMask (df : Frame) (topics : Option (List String))
    (s e : Int) (x : Row)
    (hx : x ∈ keptRows df topics (some (s, e))) :
    dateMask df.tz (coerce_range_like_series_tz s e df.tz).1
      (coerce_range_like_series_tz s e df.tz).2 x = some true := by
  have := List.of_mem_filter hx
  exact of_decide_eq_true this

/-! ### Claims -/

/-- C1, counterexample.  The claim says a zone-naive raw timestamp is left
as-is by load().  On the code it is not: with utc=True the zone-naive value
2024-01-06 09:00 (second 1704531600) is read as UTC and shifted into Seoul
wall clock, yielding 2024-01-06 18:00 (second 1704564000), not 09:00. -/
theorem naive_left_as_is_counterexample :
    scenarioParse "2024-01-06 09:00" = ParseOutcome.naiveWall 1704531600
    ∧ normalizeDate scenarioParse (some "2024-01-06 09:00") ≠ some 1704531600
    ∧ normalizeDate scenarioParse (some "2024-01-06 09:00") = some 1704564000 := by
  refine ⟨by decide, by decide, by decide⟩

/-- C1, amended.  Timestamp normalization policy of load(): every
successfully parsed value is converted into Asia/Seoul and the zone tag is
stripped; a zone-qualified value from its own zone, and a zone-naive value
after being interpreted as UTC (so it too is shifted by +9 h, not left
as-is); an unparseable value becomes the missing sentinel. -/
theorem load_normalize_policy (parse : String → ParseOutcome) (s : String)
    (u w : Int) :
    (parse s = ParseOutcome.awareUtc u →
      normalizeDate parse (some s) = some (u + seoulOffset))
    ∧ (parse s = ParseOutcome.naiveWall w →
      normalizeDate parse (some s) = some (w + seoulOffset))
    ∧ (parse s = ParseOutcome.failed → normalizeDate parse (some s) = none) := by
  refine ⟨fun h => ?_, fun h => ?_, fun h => ?_⟩ <;>
    simp [normalizeDate, to_datetime_utc, h]

/-- C1 witness: the zone-qualified scenario value 2024-01-05T10:00:00Z
becomes Seoul wall clock 19:00 (second 1704481200). -/
theorem load_normalize_policy_witness :
    normalizeDate scenarioParse (some "2024-01-05T10:00:00Z") =
      some (1704448800 + seoulOffset) :=
  (load_normalize_policy scenarioParse "2024-01-05T10:00:00Z" 1704448800 0).1
    (by decide)

/-- C6.  A total fetch failure (any exception, whatever its message) is
reported as the distinct source-unavailable condition and yields the empty
collection, and a successful fetch never reports it; in particular load()
is total — no fetch exception escapes. -/
theorem fetch_failure_safe (parse : String → ParseOutcome) :
    (∀ msg, load_sheet parse (Except.error msg) =
      ⟨true, ⟨none, []⟩⟩)
    ∧ ∀ csv, (load_sheet parse (Except.ok csv)).sourceUnavailable = false :=
  ⟨fun _ => rfl, fun _ => rfl⟩

/-- C2.  After load() the date column is tz-naive, and any two present
timestamps of the same collection compare by ordinary ordering: their
Timestamp comparison is defined (no TypeError) and the linear order
applies, whatever mixture of zone-qualified and zone-naive raw strings the
source supplied. -/
theorem load_timestamps_comparable (parse : String → ParseOutcome)
    (fetch : Except String Csv) :
    (load_sheet parse fetch).frame.tz = none
    ∧ ∀ r1 ∈ (load_sheet parse fetch).frame.rows,
      ∀ r2 ∈ (load_sheet parse fetch).frame.rows,
      ∀ t1 t2 : Int, r1.publishedAt = some t1 → r2.publishedAt = some t2 →
        tsLe (seriesTs (load_sheet parse fetch).frame.tz t1)
            (seriesTs (load_sheet parse fetch).frame.tz t2) =
          some (decide (t1 ≤ t2))
        ∧ (t1 ≤ t2 ∨ t2 ≤ t1) := by
  have htz : (load_sheet parse fetch).frame.tz = none := by
    cases fetch <;> rfl
  refine ⟨htz, fun r1 _ r2 _ t1 t2 _ _ => ⟨?_, Int.le_total t1 t2⟩⟩
  rw [htz]
  rfl

/-- C2 witness: the two present timestamps of the loaded scenario frame
(rows 1 and 2) are comparable. -/
theorem load_timestamps_comparable_witness :
    tsLe (seriesTs (load_sheet scenarioParse (Except.ok scenarioCsv)).frame.tz
        1704481200)
      (seriesTs (load_sheet scenarioParse (Except.ok scenarioCsv)).frame.tz
        1704564000) = some (decide ((1704481200 : Int) ≤ 1704564000))
    ∧ ((1704481200 : Int) ≤ 1704564000 ∨ (1704564000 : Int) ≤ 1704481200) :=
  (load_timestamps_comparable scenarioParse (Except.ok scenarioCsv)).2
    rowA (by decide) rowB (by decide) 1704481200 1704564000 (by decide) (by decide)

/-- C7.  Per-field degradation of load(): every raw row yields exactly one
Record (all six logical fields structurally present, missing values being
the sentinel); an absent required column reads as the sentinel; an
unparseable or absent date cell makes only publishedAt the sentinel; and
the other five fields are exactly the row's own cells, untouched by any
date-parse failure. -/
theorem per_field_degradation (parse : String → ParseOutcome) (csv : Csv)
    (i : Nat) (raw : List (Option String)) (h : csv.rows[i]? = some raw) :
    (load_sheet parse (Except.ok csv)).frame.rows[i]? =
      some (mkRecord parse csv.header raw)
    ∧ (∀ c, colIndex csv.header c = none → getCell csv.header raw c = none)
    ∧ (∀ s, getCell csv.header raw "날짜" = some s →
        parse s = ParseOutcome.failed →
        (mkRecord parse csv.header raw).publishedAt = none)
    ∧ (getCell csv.header raw "날짜" = none →
        (mkRecord parse csv.header raw).publishedAt = none)
    ∧ (mkRecord parse csv.header raw).title = getCell csv.header raw "제목"
    ∧ (mkRecord parse csv.header raw).body = getCell csv.header raw "본문"
    ∧ (mkRecord parse csv.header raw).topic = getCell csv.header raw "토픽 분류"
    ∧ (mkRecord parse csv.header raw).summary = getCell csv.header raw "요약"
    ∧ (mkRecord parse csv.header raw).newsletterBody =
        getCell csv.header raw "뉴스레터" := by
  refine ⟨?_, fun c hc => ?_, fun s hs hfail => ?_, fun hna => ?_,
    rfl, rfl, rfl, rfl, rfl⟩
  · simp [load_sheet, List.getElem?_map, h]
  · simp [getCell, hc]
  · simp [mkRecord, normalizeDate, to_datetime_utc, hs, hfail]
  · simp [mkRecord, normalizeDate, to_datetime_utc, hna]

/-- C7 witness: the degraded raw row (four columns absent, unparseable
date) still yields its full Record. -/
theorem per_field_degradation_witness :
    (load_sheet scenarioParse (Except.ok degradedCsv)).frame.rows[0]? =
      some (mkRecord scenarioParse degradedCsv.header
        [some "garbage", some "기사"]) :=
  (per_field_degradation scenarioParse degradedCsv 0
    [some "garbage", some "기사"] (by decide)).1

/-- C3.  The date test of apply(): a record with a missing timestamp fails
the test whenever any range is applied (and never reaches a result under a
range); a record passes iff its timestamp is present and its wall-clock
reading lies in the inclusive interval from startDate 00:00:00 to
endDate 23:59:59 (seconds s*86400 to e*86400+86399 for epoch days s, e). -/
theorem date_range_test (tz : Option Int) (s e : Int) (r : Row) :
    (r.publishedAt = none →
      dateMask tz (coerce_range_like_series_tz s e tz).1
        (coerce_range_like_series_tz s e tz).2 r = some false)
    ∧ (dateMask tz (coerce_range_like_series_tz s e tz).1
        (coerce_range_like_series_tz s e tz).2 r = some true ↔
      ∃ v, r.publishedAt = some v ∧ s * 86400 ≤ wallOf tz v ∧
        wallOf tz v ≤ e * 86400 + 86399)
    ∧ (∀ df topics out row, filter_data df topics (some (s, e)) = some out →
        row ∈ out.rows → row.publishedAt ≠ none) := by
  refine ⟨fun h => by simp [dateMask, h], ?_, ?_⟩
  · cases hp : r.publishedAt with
    | none => simp [dateMask, hp]
    | some v =>
      cases tz <;>
        simp [dateMask, hp, coerce_range_like_series_tz, seriesTs, tsLe,
          wallOf] <;> omega
  · intro df topics out row h hmem hnone
    rw [filter_data_eq] at h
    have hout := Option.some.inj h
    rw [← hout] at hmem
    have hk : row ∈ keptRows df topics (some (s, e)) :=
      List.mem_mergeSort.mp hmem
    have hmask := mem_keptRows_dateMask df topics s e row hk
    simp [dateMask, hnone] at hmask

/-- C3 witness: the scenario record published 2024-01-06 18:00 passes the
one-day range on 2024-01-06 (epoch day 19728). -/
theorem date_range_test_witness :
    dateMask none (coerce_range_like_series_tz 19728 19728 none).1
      (coerce_range_like_series_tz 19728 19728 none).2 rowB = some true :=
  (date_range_test none 19728 19728 rowB).2.1.mpr
    ⟨1704564000, rfl, by decide, by decide⟩

/-- C5.  The topic test of apply(): an absent or empty selection filters
nothing; a non-empty selection keeps exactly the records whose topic
equals one of the selected topics, and a missing topic never matches. -/
theorem topic_filter_test (rows : List Row) (ts : List String) (r : Row) :
    topicStage none rows = rows
    ∧ topicStage (some []) rows = rows
    ∧ (ts ≠ [] → topicStage (some ts) rows = rows.filter (topicMatch ts))
    ∧ (r.topic = none → topicMatch ts r = false)
    ∧ (topicMatch ts r = true ↔ ∃ t, r.topic = some t ∧ t ∈ ts) := by
  refine ⟨rfl, rfl, fun h => ?_, fun h => by simp [topicMatch, h], ?_⟩
  · cases ts with
    | nil => exact absurd rfl h
    | cons a l => rfl
  · cases ht : r.topic with
    | none => simp [topicMatch, ht]
    | some t => simp [topicMatch, ht]

/-- C5 witness: a missing topic never matches the non-empty selection, and
a non-empty selection behaves as the isin filter. -/
theorem topic_filter_test_witness :
    topicMatch ["정치"] rowD = false
    ∧ topicStage (some ["정치"]) [rowA, rowD] =
      [rowA, rowD].filter (topicMatch ["정치"]) :=
  ⟨(topic_filter_test [rowA] ["정치"] rowD).2.2.2.1 rfl,
   (topic_filter_test [rowA, rowD] ["정치"] rowD).2.2.1 (by decide)⟩

/-- C10.  The range-bound helper returns bounds whose zone state equals the
series' zone state (localized into the series' own zone when aware, naive
when naive), so the comparisons inside apply() are always defined — no
tz-aware value is ever compared against a tz-naive one — and filter_data
never raises, for any combination of inputs. -/
theorem range_bounds_match_series (s e : Int) (tz : Option Int) :
    tsTz (coerce_range_like_series_tz s e tz).1 = tz
    ∧ tsTz (coerce_range_like_series_tz s e tz).2 = tz
    ∧ (∀ v : Int,
        (tsLe (coerce_range_like_series_tz s e tz).1
          (seriesTs tz v)).isSome = true
        ∧ (tsLe (seriesTs tz v)
          (coerce_range_like_series_tz s e tz).2).isSome = true)
    ∧ (∀ df topics dateRange, ∃ o, filter_data df topics dateRange = some o) := by
  refine ⟨?_, ?_, fun v => ⟨?_, ?_⟩, fun df topics dateRange =>
    ⟨_, filter_data_eq df topics dateRange⟩⟩ <;>
    cases tz <;> simp [coerce_range_like_series_tz, tsTz, tsLe, seriesTs]

/-- Every value below ten renders as a decimal digit character. -/
theorem digitChar_lt_ten_isDigit :
    ∀ m : Nat, m < 10 → (Nat.digitChar m).isDigit = true := by decide

/-- Reduction of a field value modulo ten always renders as a digit. -/
theorem digitChar_mod_ten_isDigit (n : Nat) :
    (Nat.digitChar (n % 10)).isDigit = true :=
  digitChar_lt_ten_isDigit (n % 10) (Nat.mod_lt n (by decide))

/-- The rendered wall-clock string always has the display shape. -/
theorem strftime_shape (w : Int) : isTsDisplay (strftimeYmdHm w) = true := by
  simp [strftimeYmdHm, fourDigits, twoDigits, isTsDisplay,
    digitChar_mod_ten_isDigit]

/-- C9.  format() totality and output shape: the missing sentinel renders
as the empty string, and every present normalized timestamp renders as a
string of the shape YYYY-MM-DD HH:MM with no zone suffix; the function is
total (never raises) over its whole input domain. -/
theorem format_display_shape :
    format_when_display none = ""
    ∧ ∀ ts : PdTimestamp, isTsDisplay (format_when_display (some ts)) = true := by
  refine ⟨rfl, fun ts => ?_⟩
  cases ts with
  | naive w => exact strftime_shape w
  | aware u off => exact strftime_shape (u + seoulOffset)
